import Mathlib

/-!
Shallow embedding of `src/protocols/types/DMABuffer.cpp` (Hyprland fork,
`CDMABuffer`): the DMA-BUF import orchestrator, the zero-copy EGL importer,
the cross-GPU CPU-copy materializer, the fence exporter/merger and the
file-descriptor lifecycle, together with theorems settling the spec claims.

Kernel- and GL-facing effects (ioctl, mmap, EGL image creation, texture
creation) are modelled as oracles supplied in an environment record; each
embedded function additionally returns the trace of externally visible
events it performed, so that claims about ordering and about "no call
issued" are statable.
-/

namespace DMABuf

/-- DRM fourcc code for ARGB8888. -/
def DRM_FORMAT_ARGB8888 : Nat := 0x34325241

/-- DRM fourcc code for XRGB8888. -/
def DRM_FORMAT_XRGB8888 : Nat := 0x34325258

/-- DRM fourcc code for ABGR8888. -/
def DRM_FORMAT_ABGR8888 : Nat := 0x34324241

/-- DRM fourcc code for XBGR8888. -/
def DRM_FORMAT_XBGR8888 : Nat := 0x34324258

/-- DRM fourcc code for RGB888. -/
def DRM_FORMAT_RGB888 : Nat := 0x34324752

/-- DRM fourcc code for BGR888. -/
def DRM_FORMAT_BGR888 : Nat := 0x34324742

/-- Sentinel modifier value meaning implicit/unspecified layout
(`DRM_FORMAT_MOD_INVALID`). -/
def DRM_FORMAT_MOD_INVALID : Nat := 0x00ffffffffffffff

/-- GL constant `GL_RGBA`. -/
def GL_RGBA : Nat := 0x1908

/-- GL constant `GL_RGB`. -/
def GL_RGB : Nat := 0x1907

/-- GL constant `GL_BGRA_EXT`. -/
def GL_BGRA_EXT : Nat := 0x80E1

/-- GL constant `GL_UNSIGNED_BYTE`. -/
def GL_UNSIGNED_BYTE : Nat := 0x1401

/-- GL constant `GL_TEXTURE_2D`. -/
def GL_TEXTURE_2D : Nat := 0x0DE1

/-- Embedding of `Aquamarine::SDMABUFAttrs` as consumed by `CDMABuffer`:
size, format code, layout modifier, plane count, per-plane fds / strides /
offsets, the cross-GPU flag and the optional source-device fd (negative
means absent, mirroring `m_attrs.sourceDevice < 0`). -/
structure Attrs where
  sizeX : Nat
  sizeY : Nat
  format : Nat
  modifier : Nat
  planes : Nat
  fds : List Int
  strides : List Nat
  offsets : List Nat
  crossGPU : Bool
  sourceDevice : Int
  deriving DecidableEq, Repr

/-- Loop body of `CDMABuffer::closeFDs`: walks the first `planes` slots of
the fd array; a slot holding `-1` is skipped, any other slot is closed
(recorded in the returned list) and overwritten with `-1`. Returns the
updated fd array and the list of fds that were actually closed. -/
def closeFDsAux : List Int → Nat → List Int × List Int
  | fds, 0 => (fds, [])
  | [], _ + 1 => ([], [])
  | fd :: rest, n + 1 =>
    let r := closeFDsAux rest n
    if fd = -1 then
      (fd :: r.1, r.2)
    else
      ((-1) :: r.1, fd :: r.2)

/-- Embedding of `CDMABuffer::closeFDs` (DMABuffer.cpp lines 130-138):
closes every still-valid fd among the first `planes` entries, then forces
the plane count to zero. Returns the updated attrs and the list of fds
that were closed by this call. -/
def closeFDs (a : Attrs) : Attrs × List Int :=
  let r := closeFDsAux a.fds a.planes
  ({ a with fds := r.1, planes := 0 }, r.2)

/-- State of the buffer's single-shot destroy-notification subscription
(`m_listeners.resourceDestroy`) together with the fd-owning attrs. -/
structure ListenerState where
  attrs : Attrs
  listenerActive : Bool
  deriving DecidableEq, Repr

/-- Externally visible actions of the destroy-notification handler. -/
inductive LEvent where
  | closeFDsCall
  | unregister
  deriving DecidableEq, Repr

/-- Embedding of the `resourceDestroy` handler registered in the
`CDMABuffer` constructor (DMABuffer.cpp lines 26-29): the lambda body is
`closeFDs(); m_listeners.resourceDestroy.reset();`, i.e. it closes the
file descriptors first and unregisters the listener second. -/
def onResourceDestroy (s : ListenerState) : ListenerState × List LEvent :=
  let a := (closeFDs s.attrs).1
  (⟨a, false⟩, [LEvent.closeFDsCall, LEvent.unregister])

/-- Pixel-type classification of a texture (`TEXTURE_RGBX` for alpha-less
formats, `TEXTURE_RGBA` otherwise). -/
inductive TexType where
  | rgbx
  | rgba
  deriving DecidableEq, Repr

/-- Embedding of the `CTexture` fields this file sets or reads: identity,
size, GL target, the synchronous flag and the pixel-type classification. -/
structure Texture where
  texID : Nat
  sizeX : Nat
  sizeY : Nat
  target : Nat
  isSynchronous : Bool
  pixelType : TexType
  deriving DecidableEq, Repr

/-- Externally visible resource events of `createCrossGPUTexture`:
mmap attempts (direct or via the DRM handle), unmaps, the
`drmPrimeFDToHandle` conversion, the `DRM_IOCTL_MODE_MAP_DUMB` request,
the `drmCloseBufferHandle` release, texture generation and deletion. -/
inductive GEvent where
  | mmapTry (ok : Bool)
  | munmap
  | primeFD (ok : Bool)
  | mapDumb (ok : Bool)
  | closeHandle
  | genTex (id : Nat)
  | deleteTex
  deriving DecidableEq, Repr

/-- Oracle outcomes for the kernel/GL calls `createCrossGPUTexture`
performs: whether the direct mmap succeeds, the handle returned by
`drmPrimeFDToHandle` (none = failure), the offset returned by the
map-dumb request (none = failure), whether the mmap through the source
device succeeds, the id handed out by `glGenTextures` (0 = failure) and
whether `glGetError` reports an accumulated error after upload. -/
structure GPUEnv where
  mmapDirectOk : Bool
  primeHandle : Option Nat
  mapDumbOffset : Option Nat
  mmapDeviceOk : Bool
  genTexID : Nat
  glErr : Bool
  deriving DecidableEq, Repr

/-- Two-stage mapping strategy of `createCrossGPUTexture` (DMABuffer.cpp
lines 230-270): first a direct mmap of the plane fd; on failure, require a
source device, convert the fd to a DRM handle, request a dumb-buffer
mapping offset, mmap through the device, and close the handle right after
the device mmap call (on the map-dumb failure path the handle is closed
before returning). Returns whether a mapping was established plus the
event trace. -/
def crossGPUMap (env : GPUEnv) (a : Attrs) : Bool × List GEvent :=
  if env.mmapDirectOk then
    (true, [GEvent.mmapTry true])
  else if a.sourceDevice < 0 then
    (false, [GEvent.mmapTry false])
  else
    match env.primeHandle with
    | none => (false, [GEvent.mmapTry false, GEvent.primeFD false])
    | some _ =>
      match env.mapDumbOffset with
      | none =>
        (false, [GEvent.mmapTry false, GEvent.primeFD true, GEvent.mapDumb false,
                 GEvent.closeHandle])
      | some _ =>
        (env.mmapDeviceOk,
         [GEvent.mmapTry false, GEvent.primeFD true, GEvent.mapDumb true,
          GEvent.mmapTry env.mmapDeviceOk, GEvent.closeHandle])

/-- Format translation of `createCrossGPUTexture` (DMABuffer.cpp lines
272-305): maps a DRM format code to (glFormat, glType, bytes per pixel),
or none for BGR888 (explicitly unsupported, would need swizzling) and for
every unknown format code. -/
def glFormatFor (format : Nat) : Option (Nat × Nat × Nat) :=
  if format = DRM_FORMAT_ARGB8888 ∨ format = DRM_FORMAT_XRGB8888 then
    some (GL_BGRA_EXT, GL_UNSIGNED_BYTE, 4)
  else if format = DRM_FORMAT_ABGR8888 ∨ format = DRM_FORMAT_XBGR8888 then
    some (GL_RGBA, GL_UNSIGNED_BYTE, 4)
  else if format = DRM_FORMAT_RGB888 then
    some (GL_RGB, GL_UNSIGNED_BYTE, 3)
  else
    none

/-- Pixel-type classification applied to the materializer's texture
(DMABuffer.cpp lines 353-362): the alpha-less formats XRGB8888, XBGR8888
and RGB888 yield `TEXTURE_RGBX`, everything else `TEXTURE_RGBA`. -/
def texTypeFor (format : Nat) : TexType :=
  if format = DRM_FORMAT_XRGB8888 ∨ format = DRM_FORMAT_XBGR8888 ∨
      format = DRM_FORMAT_RGB888 then
    TexType.rgbx
  else
    TexType.rgba

/-- Embedding of `CDMABuffer::createCrossGPUTexture` (DMABuffer.cpp lines
213-367): gate on exactly one plane, compute the buffer size from plane-0
stride times height (zero fails), establish a memory mapping via
`crossGPUMap`, translate the format, create and upload a GL texture with
the mapping always unmapped before returning, and fail (deleting the
texture) when a GL error is pending after upload. Returns the texture (as
the C++ `true` return with `m_texture` set) plus the event trace. -/
def createCrossGPUTexture (env : GPUEnv) (a : Attrs) : Option Texture × List GEvent :=
  if a.planes ≠ 1 then
    (none, [])
  else if a.strides.getD 0 0 * a.sizeY = 0 then
    (none, [])
  else
    let m := crossGPUMap env a
    if m.1 then
      match glFormatFor a.format with
      | none => (none, m.2 ++ [GEvent.munmap])
      | some _ =>
        if env.genTexID = 0 then
          (none, m.2 ++ [GEvent.genTex 0, GEvent.munmap])
        else
          let evs := m.2 ++ [GEvent.genTex env.genTexID, GEvent.munmap]
          if env.glErr then
            (none, evs ++ [GEvent.deleteTex])
          else
            (some { texID := env.genTexID, sizeX := a.sizeX, sizeY := a.sizeY,
                    target := GL_TEXTURE_2D, isSynchronous := true,
                    pixelType := texTypeFor a.format }, evs)
    else
      (none, m.2)

/-- Result object of the constructor: the (possibly modifier-rewritten)
attrs, the owned texture if any, and the `m_success` / `m_opaque` flags. -/
structure BufferState where
  attrs : Attrs
  texture : Option Texture
  success : Bool
  opaqueBit : Bool
  deriving DecidableEq, Repr

/-- Strategy-level events of the constructor: one `materializer` marker
when `createCrossGPUTexture` is attempted, and one `eglAttempt` per
`createEGLImage` call, recording the attrs passed to it. -/
inductive IEvent where
  | materializer
  | eglAttempt (a : Attrs)
  deriving DecidableEq, Repr

/-- Oracles for the constructor's external collaborators: the secondary
DRM node availability, the two fallback environment toggles, the logging
toggle, `NFormatUtils::isFormatOpaque`, `createEGLImage` (none = failure),
the external `CTexture(attrs, eglImage)` constructor, and the GPU oracle
threaded into the materializer. -/
structure ImportEnv where
  secondaryAvailable : Bool
  enableCPUFallback : Bool
  disableCPUFallback : Bool
  logDMABUF : Bool
  isFormatOpaqueFn : Nat → Bool
  createEGLImage : Attrs → Option Nat
  texFromImage : Attrs → Nat → Texture
  gpu : GPUEnv

/-- Zero-copy EGL path of the constructor (DMABuffer.cpp lines 63-88):
request an EGL image for the current attrs; on failure, rewrite the
modifier to the implicit sentinel and retry once; a second failure
returns with the state otherwise untouched. On success, wrap the image in
a texture, derive `opaque` from the format, and set `success` from the
texture id. -/
def eglPath (env : ImportEnv) (st : BufferState) : BufferState × List IEvent :=
  match env.createEGLImage st.attrs with
  | some img =>
    let tex := env.texFromImage st.attrs img
    ({ st with texture := some tex,
               opaqueBit := env.isFormatOpaqueFn st.attrs.format,
               success := tex.texID != 0 },
     [IEvent.eglAttempt st.attrs])
  | none =>
    let a2 := { st.attrs with modifier := DRM_FORMAT_MOD_INVALID }
    match env.createEGLImage a2 with
    | some img =>
      let tex := env.texFromImage a2 img
      ({ st with attrs := a2, texture := some tex,
                 opaqueBit := env.isFormatOpaqueFn a2.format,
                 success := tex.texID != 0 },
       [IEvent.eglAttempt st.attrs, IEvent.eglAttempt a2])
    | none =>
      ({ st with attrs := a2 },
       [IEvent.eglAttempt st.attrs, IEvent.eglAttempt a2])

/-- Orchestrating constructor body (DMABuffer.cpp lines 36-88): compute
`allowCPUFallback = enable && !disable`; when the buffer is cross-GPU, the
secondary node is available and fallback is allowed, attempt the
materializer first — on success set `opaque`/`success` and return early
when `success` holds — and otherwise (materializer failed, or the gate
condition is false) run the zero-copy EGL path. -/
def importBuffer (env : ImportEnv) (a : Attrs) : BufferState × List IEvent :=
  let allowCPUFallback := env.enableCPUFallback && !env.disableCPUFallback
  let st0 : BufferState := { attrs := a, texture := none, success := false, opaqueBit := false }
  if a.crossGPU && env.secondaryAvailable && allowCPUFallback then
    match (createCrossGPUTexture env.gpu a).1 with
    | some tex =>
      let st1 :=
        { st0 with
          texture := some tex,
          opaqueBit := env.isFormatOpaqueFn a.format,
          success := tex.texID != 0 }
      if st1.success then
        (st1, [IEvent.materializer])
      else
        let r := eglPath env st1
        (r.1, IEvent.materializer :: r.2)
    | none =>
      let r := eglPath env st0
      (r.1, IEvent.materializer :: r.2)
  else
    eglPath env st0

/-- Kernel control calls issued by `exportSyncFile`: one export-sync-file
ioctl per non-skipped plane fd, and one sync-merge ioctl per merge step,
each recorded with its outcome. -/
inductive KEvent where
  | exportIoctl (fd : Int) (ok : Bool)
  | mergeIoctl (a b : Int) (ok : Bool)
  deriving DecidableEq, Repr

/-- Oracles for `exportSyncFile`: the platform flag (the non-Linux build
returns an empty fence unconditionally), whether a renderer exists and
whether it is Intel (gating the readability probe), per-fd readability,
the export-sync-file ioctl (none = failure after the EINTR/EAGAIN retry
loop) and the sync-merge ioctl. A `CFileDescriptor` is modelled as
`Option Int`, none being the invalid/empty fence. -/
structure SyncEnv where
  linuxPlatform : Bool
  hasRenderer : Bool
  isIntel : Bool
  readable : Int → Bool
  exportFence : Int → Option Int
  merge : Int → Int → Option Int

/-- Per-plane fence collection loop of `exportSyncFile` (DMABuffer.cpp
lines 161-179): skip invalid fds; when a renderer exists and is not
Intel, skip fds that are already readable; otherwise issue the export
ioctl, keeping the fence on success and dropping the plane on failure. -/
def collectSyncFds (env : SyncEnv) : List Int → List Int × List KEvent
  | [] => ([], [])
  | fd :: rest =>
    let r := collectSyncFds env rest
    if fd = -1 then
      r
    else if env.hasRenderer && !env.isIntel && env.readable fd then
      r
    else
      match env.exportFence fd with
      | some sf => (sf :: r.1, KEvent.exportIoctl fd true :: r.2)
      | none => (r.1, KEvent.exportIoctl fd false :: r.2)

/-- Merge loop of `exportSyncFile` (DMABuffer.cpp lines 184-204): fold the
collected fences left to right; an invalid accumulator is (re)seeded from
the next fence, otherwise the accumulator is merged with the next fence —
a successful merge replaces the accumulator with the merged fence, a
failed merge resets the accumulator to the invalid fence. -/
def mergeAll (merge : Int → Int → Option Int) : Option Int → List Int → Option Int × List KEvent
  | acc, [] => (acc, [])
  | none, f :: rest => mergeAll merge (some f) rest
  | some a, f :: rest =>
    match merge a f with
    | some m =>
      let r := mergeAll merge (some m) rest
      (r.1, KEvent.mergeIoctl a f true :: r.2)
    | none =>
      let r := mergeAll merge none rest
      (r.1, KEvent.mergeIoctl a f false :: r.2)

/-- Embedding of `CDMABuffer::exportSyncFile` (DMABuffer.cpp lines
151-208): an unsuccessful buffer or a non-Linux platform returns the
empty fence with no kernel calls; otherwise collect per-plane fences over
the whole fd array, return empty when none were obtained, and otherwise
fold them with `mergeAll`. -/
def exportSyncFile (env : SyncEnv) (b : BufferState) : Option Int × List KEvent :=
  if !b.success then
    (none, [])
  else if !env.linuxPlatform then
    (none, [])
  else
    let c := collectSyncFds env b.attrs.fds
    if c.1 = [] then
      (none, c.2)
    else
      let m := mergeAll env.merge none c.1
      (m.1, c.2 ++ m.2)

/-- Embedding of `CDMABuffer::caps` (DMABuffer.cpp lines 97-99): the
buffer unconditionally advertises `BUFFER_CAPABILITY_DATAPTR`. The
Aquamarine capability enum is embedded by its numeric values, with
`BUFFER_CAPABILITY_DATAPTR = 1`. -/
def caps : Nat := 1

/-- Numeric value of `Aquamarine::eBufferCapability::BUFFER_CAPABILITY_DATAPTR`,
the capability meaning direct data-pointer access is supported. -/
def BUFFER_CAPABILITY_DATAPTR : Nat := 1

/-- Embedding of `CDMABuffer::beginDataPtr` (DMABuffer.cpp lines 117-120):
for every flags value it returns the tuple (null pointer, format 0,
size 0); the pointer is modelled as `Option Nat` with none for null. -/
def beginDataPtr (_flags : Nat) : Option Nat × Nat × Nat :=
  (none, 0, 0)

/-- Embedding of `CDMABuffer::endDataPtr` (DMABuffer.cpp lines 122-124):
the body is empty, so the buffer state is returned unchanged. -/
def endDataPtr (b : BufferState) : BufferState :=
  b

/-- Predicate picking out successful mmap events. -/
def isMmapOk : GEvent → Bool
  | GEvent.mmapTry true => true
  | _ => false

/-- Predicate picking out munmap events. -/
def isMunmap : GEvent → Bool
  | GEvent.munmap => true
  | _ => false

/-- Predicate picking out successful `drmPrimeFDToHandle` events. -/
def isPrimeOk : GEvent → Bool
  | GEvent.primeFD true => true
  | _ => false

/-- Predicate picking out `drmCloseBufferHandle` events. -/
def isCloseHandle : GEvent → Bool
  | GEvent.closeHandle => true
  | _ => false

/-- Predicate picking out `createEGLImage` attempts among strategy events. -/
def isEglAttempt : IEvent → Bool
  | IEvent.eglAttempt _ => true
  | _ => false

/-- Sample single-plane XRGB8888 descriptor with a non-implicit modifier,
used to instantiate witnesses and counterexamples. -/
def sampleAttrs : Attrs :=
  { sizeX := 4, sizeY := 4, format := DRM_FORMAT_XRGB8888, modifier := 7, planes := 1,
    fds := [3, -1, -1, -1], strides := [16, 0, 0, 0], offsets := [0, 0, 0, 0],
    crossGPU := false, sourceDevice := -1 }

/-- Sample external texture constructor: wraps an EGL image id as the
texture identity. -/
def sampleTexFromImage : Attrs → Nat → Texture :=
  fun a img =>
    { texID := img, sizeX := a.sizeX, sizeY := a.sizeY, target := GL_TEXTURE_2D,
      isSynchronous := false, pixelType := TexType.rgba }

/-- Sample GPU oracle in which every kernel/GL call fails. -/
def gpuEnvFail : GPUEnv :=
  { mmapDirectOk := false, primeHandle := none, mapDumbOffset := none,
    mmapDeviceOk := false, genTexID := 0, glErr := false }

/-- Sample fence environment: every plane exports a fence equal to its fd
plus seven, and merging fails exactly when the accumulator is fence 10. -/
def syncEnvMergeFail : SyncEnv :=
  { linuxPlatform := true, hasRenderer := false, isIntel := false,
    readable := fun _ => false, exportFence := fun fd => some (fd + 7),
    merge := fun x _ => if x = 10 then none else some 99 }

/-- Sample fence environment in which every kernel call succeeds. -/
def syncEnvAllOk : SyncEnv :=
  { linuxPlatform := true, hasRenderer := false, isIntel := false,
    readable := fun _ => false, exportFence := fun fd => some fd,
    merge := fun x y => some (x + y) }

/-- Sample successfully imported buffer with three valid plane fds. -/
def bufThreePlanes : BufferState :=
  { attrs := { sampleAttrs with fds := [3, 4, 5] }, texture := none,
    success := true, opaqueBit := false }

/-- Sample buffer whose import failed. -/
def bufFailed : BufferState :=
  { bufThreePlanes with success := false }

/-- Sample successfully imported buffer with no valid plane fds. -/
def bufNoFds : BufferState :=
  { attrs := { sampleAttrs with fds := [-1, -1, -1, -1] }, texture := none,
    success := true, opaqueBit := false }

/-- Sample constructor environment: EGL image creation always fails and
the format-classification oracle marks XRGB8888 alpha-less. -/
def importEnvEglFail : ImportEnv :=
  { secondaryAvailable := false, enableCPUFallback := false, disableCPUFallback := false,
    logDMABUF := false, isFormatOpaqueFn := fun f => f == DRM_FORMAT_XRGB8888,
    createEGLImage := fun _ => none, texFromImage := sampleTexFromImage, gpu := gpuEnvFail }

/-- Sample constructor environment: EGL image creation always succeeds. -/
def importEnvEglOk : ImportEnv :=
  { importEnvEglFail with createEGLImage := fun _ => some 1 }

/-- Sample constructor environment with the cross-GPU fallback gate
satisfied: the secondary node is available and fallback is enabled. -/
def importEnvFallback : ImportEnv :=
  { importEnvEglOk with secondaryAvailable := true, enableCPUFallback := true }

/-- Sample constructor environment in which EGL image creation fails for
a non-implicit modifier and succeeds for the implicit sentinel. -/
def importEnvRetryOk : ImportEnv :=
  { importEnvEglFail with
    createEGLImage := fun a => if a.modifier == DRM_FORMAT_MOD_INVALID then some 1 else none }

/-- Sample two-plane cross-GPU descriptor (rejected by the materializer). -/
def attrsTwoPlanes : Attrs :=
  { sampleAttrs with crossGPU := true, planes := 2, fds := [3, 4, -1, -1] }

/-- Sample descriptor state with two planes, one of them already closed. -/
def attrsHalfClosed : Attrs :=
  { sampleAttrs with planes := 2, fds := [5, -1, 7, -1] }

/-- Sample listener state with the destroy notification still registered. -/
def listenerArmed : ListenerState :=
  { attrs := attrsHalfClosed, listenerActive := true }

/-- Sample initial buffer state wrapping `sampleAttrs`, as built at the
top of the constructor. -/
def stateInitial : BufferState :=
  { attrs := sampleAttrs, texture := none, success := false, opaqueBit := false }

/-- Walking zero slots leaves the fd array unchanged and closes nothing. -/
theorem closeFDsAux_zero (fds : List Int) : closeFDsAux fds 0 = (fds, []) := by
  cases fds <;> rfl

/-- A slot holding the invalid sentinel is never among the closed fds. -/
theorem closeFDsAux_no_invalid (fds : List Int) (n : Nat) :
    (-1 : Int) ∉ (closeFDsAux fds n).2 := by
  induction fds generalizing n with
  | nil => cases n <;> simp [closeFDsAux]
  | cons fd rest ih =>
    cases n with
    | zero => simp [closeFDsAux]
    | succ m =>
      by_cases h : fd = -1
      · simpa [closeFDsAux, h] using ih m
      · simp only [closeFDsAux, if_neg h, List.mem_cons]
        rintro (h1 | h2)
        · exact h h1.symm
        · exact ih m h2

/-- After the walk, every slot with index below `n` holds the sentinel and
slots at or above `n` are untouched. -/
theorem closeFDsAux_getD (fds : List Int) (n i : Nat) :
    (closeFDsAux fds n).1.getD i (-1) =
      if i < n then -1 else fds.getD i (-1) := by
  induction fds generalizing n i with
  | nil =>
    cases n <;> simp [closeFDsAux]
  | cons fd rest ih =>
    cases n with
    | zero => simp [closeFDsAux]
    | succ m =>
      cases i with
      | zero =>
        by_cases h : fd = -1 <;> simp [closeFDsAux, h, List.getD]
      | succ j =>
        by_cases h : fd = -1 <;>
          simpa [closeFDsAux, h, List.getD, Nat.succ_lt_succ_iff] using ih m j

/-- C6: the release path is idempotent — a second `closeFDs` neither
changes the state nor closes anything; after one call the plane count is
zero, every slot below the original plane count holds the invalid
sentinel, slots beyond it are untouched, and a slot already holding the
sentinel is never among the closed fds. -/
theorem dmabuf_c6 (a : Attrs) :
    (closeFDs (closeFDs a).1).1 = (closeFDs a).1 ∧
    (closeFDs (closeFDs a).1).2 = [] ∧
    (closeFDs a).1.planes = 0 ∧
    (∀ i, i < a.planes → (closeFDs a).1.fds.getD i (-1) = -1) ∧
    (∀ i, a.planes ≤ i → (closeFDs a).1.fds.getD i (-1) = a.fds.getD i (-1)) ∧
    (-1 : Int) ∉ (closeFDs a).2 := by
  refine ⟨?_, ?_, rfl, ?_, ?_, ?_⟩
  · simp [closeFDs, closeFDsAux_zero]
  · simp [closeFDs, closeFDsAux_zero]
  · intro i hi
    show (closeFDsAux a.fds a.planes).1.getD i (-1) = -1
    rw [closeFDsAux_getD, if_pos hi]
  · intro i hi
    show (closeFDsAux a.fds a.planes).1.getD i (-1) = a.fds.getD i (-1)
    rw [closeFDsAux_getD, if_neg (Nat.not_lt.mpr hi)]
  · simpa [closeFDs] using closeFDsAux_no_invalid a.fds a.planes

/-- C6 witness: at the sample half-closed descriptor, running the release
twice equals running it once, and plane slot 0 ends at the sentinel. -/
theorem dmabuf_c6_witness :
    (closeFDs (closeFDs attrsHalfClosed).1).1 = (closeFDs attrsHalfClosed).1 ∧
    (closeFDs attrsHalfClosed).1.fds.getD 0 (-1) = -1 :=
  ⟨(dmabuf_c6 attrsHalfClosed).1, (dmabuf_c6 attrsHalfClosed).2.2.2.1 0 (by decide)⟩

/-- C4 counterexample: when the destroy notification fires on the sample
armed listener, the handler's first action is the `closeFDs` call, not the
unregistration, and that first call does close file descriptors. -/
theorem dmabuf_c4_cex :
    ((onResourceDestroy listenerArmed).2.head? = some LEvent.closeFDsCall) ∧
    ((onResourceDestroy listenerArmed).2.head? ≠ some LEvent.unregister) ∧
    (closeFDs listenerArmed.attrs).2 ≠ [] := by
  decide

/-- C4 amended: whenever the destroy notification fires, the handler first
runs the file-descriptor release (`closeFDs`) and only then, as its second
and final action, unregisters the notification itself. -/
theorem dmabuf_c4_amended (s : ListenerState) :
    (onResourceDestroy s).2 = [LEvent.closeFDsCall, LEvent.unregister] ∧
    (onResourceDestroy s).1.listenerActive = false ∧
    (onResourceDestroy s).1.attrs = (closeFDs s.attrs).1 :=
  ⟨rfl, rfl, rfl⟩

/-- C7: a descriptor with plane count other than one, or with a zero
required byte length (plane-0 stride times height), makes the materializer
fail with an empty event trace — in particular no memory mapping is
attempted. -/
theorem dmabuf_c7 (env : GPUEnv) (a : Attrs)
    (h : a.planes ≠ 1 ∨ a.strides.getD 0 0 * a.sizeY = 0) :
    (createCrossGPUTexture env a).1 = none ∧
    (createCrossGPUTexture env a).2 = [] ∧
    ∀ ok, GEvent.mmapTry ok ∉ (createCrossGPUTexture env a).2 := by
  have hres : createCrossGPUTexture env a = (none, []) := by
    unfold createCrossGPUTexture
    rcases h with h | h
    · rw [if_pos h]
    · by_cases hp : a.planes ≠ 1
      · rw [if_pos hp]
      · rw [if_neg hp, if_pos h]
  refine ⟨by simp [hres], by simp [hres], ?_⟩
  intro ok
  simp [hres]

/-- C7 witness: the sample two-plane descriptor is rejected by the
materializer with no events. -/
theorem dmabuf_c7_witness :
    (createCrossGPUTexture gpuEnvFail attrsTwoPlanes).1 = none ∧
    (createCrossGPUTexture gpuEnvFail attrsTwoPlanes).2 = [] :=
  ⟨(dmabuf_c7 gpuEnvFail attrsTwoPlanes (Or.inl (by decide))).1,
   (dmabuf_c7 gpuEnvFail attrsTwoPlanes (Or.inl (by decide))).2.1⟩

/-- Appending one fence to the fold input applies one more step: an
invalid accumulator after the prefix is re-seeded with the new fence,
otherwise the accumulator is merged with it. -/
theorem mergeAll_fst_snoc (m : Int → Int → Option Int) (acc : Option Int)
    (fs : List Int) (f : Int) :
    (mergeAll m acc (fs ++ [f])).1 =
      (match (mergeAll m acc fs).1 with
       | none => some f
       | some a => m a f) := by
  induction fs generalizing acc with
  | nil =>
    cases acc with
    | none => simp [mergeAll]
    | some a => cases h : m a f <;> simp [mergeAll, h]
  | cons g gs ih =>
    cases acc with
    | none => simpa [mergeAll] using ih (some g)
    | some a =>
      cases h : m a g <;> simp [mergeAll, h, ih]

/-- When every merge call succeeds, folding a nonempty fence list (or any
list from a valid accumulator) yields a valid fence. -/
theorem mergeAll_fst_isSome (m : Int → Int → Option Int)
    (hm : ∀ x y, (m x y).isSome) (fs : List Int) :
    ∀ acc : Option Int, fs ≠ [] ∨ acc.isSome → ((mergeAll m acc fs).1).isSome := by
  induction fs with
  | nil =>
    intro acc h
    rcases h with h | h
    · exact absurd rfl h
    · simpa [mergeAll] using h
  | cons g gs ih =>
    intro acc _
    cases acc with
    | none =>
      simpa [mergeAll] using ih (some g) (Or.inr (by simp))
    | some a =>
      cases hx : m a g with
      | none =>
        have := hm a g
        rw [hx] at this
        simp at this
      | some x =>
        simpa [mergeAll, hx] using ih (some x) (Or.inr (by simp))

/-- C1 counterexample: on the sample buffer with three planes, fences 10,
11, 12 are exported, the merge of 10 and 11 fails (visible in the trace),
yet the function returns fence 12 — a per-plane fence, not the empty
fence. -/
theorem dmabuf_c1_cex :
    (exportSyncFile syncEnvMergeFail bufThreePlanes).1 = some 12 ∧
    KEvent.mergeIoctl 10 11 false ∈ (exportSyncFile syncEnvMergeFail bufThreePlanes).2 ∧
    (exportSyncFile syncEnvMergeFail bufThreePlanes).1 ≠ none := by
  decide

/-- C1 amended: if every merge step succeeds the fold yields exactly one
valid fence; a merge-step failure resets the accumulator to the empty
fence, after which the fold re-seeds from the next per-plane fence — so
the whole result is empty precisely when the step consuming the final
collected fence fails (an earlier failure can yield a fence built from
only a suffix of the per-plane fences). -/
theorem dmabuf_c1_amended (env : SyncEnv) (b : BufferState) (fs : List Int) (f : Int) :
    ((mergeAll env.merge none (fs ++ [f])).1 = none ↔
      ∃ a, (mergeAll env.merge none fs).1 = some a ∧ env.merge a f = none) ∧
    ((∀ x y, ((env.merge x y)).isSome) → b.success = true → env.linuxPlatform = true →
      (collectSyncFds env b.attrs.fds).1 ≠ [] → ((exportSyncFile env b).1).isSome) := by
  constructor
  · rw [mergeAll_fst_snoc]
    cases h : (mergeAll env.merge none fs).1 with
    | none => simp
    | some a => simp [h]
  · intro hm hs hl hne
    simpa [exportSyncFile, hs, hl, hne] using
      mergeAll_fst_isSome env.merge hm (collectSyncFds env b.attrs.fds).1 none (Or.inl hne)

/-- C1 amended witness: with the all-success fence environment and the
sample three-plane buffer, the export yields a valid fence. -/
theorem dmabuf_c1_amended_witness :
    ((exportSyncFile syncEnvAllOk bufThreePlanes).1).isSome :=
  (dmabuf_c1_amended syncEnvAllOk bufThreePlanes [] 0).2
    (fun _ _ => rfl) rfl rfl (by decide)

/-- C9: on a buffer whose import failed, `exportSyncFile` returns the
empty fence with no kernel calls issued; on a successful buffer where no
per-plane fence was collected, the result is likewise the empty fence. -/
theorem dmabuf_c9 (env : SyncEnv) (b : BufferState) :
    (b.success = false → exportSyncFile env b = (none, [])) ∧
    (b.success = true → (collectSyncFds env b.attrs.fds).1 = [] →
      (exportSyncFile env b).1 = none) := by
  constructor
  · intro h
    simp [exportSyncFile, h]
  · intro h hc
    by_cases hl : env.linuxPlatform <;> simp [exportSyncFile, h, hl, hc]

/-- C9 witness: the sample failed buffer yields the empty fence and an
empty trace, and the sample fd-less successful buffer yields the empty
fence. -/
theorem dmabuf_c9_witness :
    exportSyncFile syncEnvMergeFail bufFailed = (none, []) ∧
    (exportSyncFile syncEnvMergeFail bufNoFds).1 = none :=
  ⟨(dmabuf_c9 syncEnvMergeFail bufFailed).1 rfl,
   (dmabuf_c9 syncEnvMergeFail bufNoFds).2 rfl (by decide)⟩

/-- Event counts of the two-stage mapping: it records one successful mmap
exactly when it reports success, performs no munmap itself, and closes
the device-local handle exactly as often as it obtained one. -/
theorem crossGPUMap_counts (env : GPUEnv) (a : Attrs) :
    ((crossGPUMap env a).2.countP isMmapOk =
      if (crossGPUMap env a).1 then 1 else 0) ∧
    ((crossGPUMap env a).2.countP isMunmap = 0) ∧
    ((crossGPUMap env a).2.countP isPrimeOk =
      (crossGPUMap env a).2.countP isCloseHandle) := by
  unfold crossGPUMap
  by_cases h1 : env.mmapDirectOk
  · simp [h1, isMmapOk, isMunmap, isPrimeOk, isCloseHandle]
  · by_cases h2 : a.sourceDevice < 0
    · simp [h1, h2, isMmapOk, isMunmap, isPrimeOk, isCloseHandle]
    · cases h3 : env.primeHandle with
      | none => simp [h1, h2, h3, isMmapOk, isMunmap, isPrimeOk, isCloseHandle]
      | some hh =>
        cases h4 : env.mapDumbOffset with
        | none => simp [h1, h2, h3, h4, isMmapOk, isMunmap, isPrimeOk, isCloseHandle]
        | some off =>
          cases h5 : env.mmapDeviceOk <;>
            simp [h1, h2, h3, h4, h5, isMmapOk, isMunmap, isPrimeOk, isCloseHandle]

/-- C8: on every exit path of the materializer, the number of successful
memory mappings equals the number of unmaps performed before returning,
and the device-local buffer handle is released exactly as often as it was
obtained — whether the dumb-buffer mapping request succeeded or failed. -/
theorem dmabuf_c8 (env : GPUEnv) (a : Attrs) :
    ((createCrossGPUTexture env a).2.countP isMmapOk =
      (createCrossGPUTexture env a).2.countP isMunmap) ∧
    ((createCrossGPUTexture env a).2.countP isPrimeOk =
      (createCrossGPUTexture env a).2.countP isCloseHandle) := by
  obtain ⟨h1, h2, h3⟩ := crossGPUMap_counts env a
  unfold createCrossGPUTexture
  by_cases hp : a.planes ≠ 1
  · rw [if_pos hp]
    simp
  · rw [if_neg hp]
    by_cases hz : a.strides.getD 0 0 * a.sizeY = 0
    · rw [if_pos hz]
      simp
    · rw [if_neg hz]
      cases hm : (crossGPUMap env a).1 with
      | false =>
        rw [hm] at h1
        simp [hm, h1, h2, h3]
      | true =>
        rw [hm] at h1
        cases hg : glFormatFor a.format with
        | none =>
          simp [hm, hg, List.countP_append, h1, h2, h3,
                isMmapOk, isMunmap, isPrimeOk, isCloseHandle]
        | some fmt =>
          by_cases hz2 : env.genTexID = 0
          · simp [hm, hg, hz2, List.countP_append, h1, h2, h3,
                  isMmapOk, isMunmap, isPrimeOk, isCloseHandle]
          · by_cases he : env.glErr
            · simp [hm, hg, hz2, he, List.countP_append, h1, h2, h3,
                    isMmapOk, isMunmap, isPrimeOk, isCloseHandle]
            · simp [hm, hg, hz2, he, List.countP_append, h1, h2, h3,
                    isMmapOk, isMunmap, isPrimeOk, isCloseHandle]

/-- The zero-copy path's event trace starts with an attempt for the
current attrs, and every later event is also an attempt. -/
theorem eglPath_snd_shape (env : ImportEnv) (st : BufferState) :
    ∃ rest, (eglPath env st).2 = IEvent.eglAttempt st.attrs :: rest ∧
      ∀ e ∈ rest, ∃ a2, e = IEvent.eglAttempt a2 := by
  cases h1 : env.createEGLImage st.attrs with
  | some img =>
    exact ⟨[], by simp [eglPath, h1], by simp⟩
  | none =>
    cases h2 : env.createEGLImage { st.attrs with modifier := DRM_FORMAT_MOD_INVALID } with
    | some img =>
      refine ⟨[IEvent.eglAttempt { st.attrs with modifier := DRM_FORMAT_MOD_INVALID }],
        by simp [eglPath, h1, h2], ?_⟩
      intro e he
      exact ⟨_, List.mem_singleton.mp he⟩
    | none =>
      refine ⟨[IEvent.eglAttempt { st.attrs with modifier := DRM_FORMAT_MOD_INVALID }],
        by simp [eglPath, h1, h2], ?_⟩
      intro e he
      exact ⟨_, List.mem_singleton.mp he⟩

/-- Every event of the zero-copy path is a `createEGLImage` attempt. -/
theorem eglPath_all_attempts (env : ImportEnv) (st : BufferState) :
    ∀ e ∈ (eglPath env st).2, ∃ a2, e = IEvent.eglAttempt a2 := by
  obtain ⟨rest, hr, hall⟩ := eglPath_snd_shape env st
  intro e he
  rw [hr] at he
  rcases List.mem_cons.mp he with h | h
  · exact ⟨st.attrs, h⟩
  · exact hall e h

/-- The zero-copy path never records a materializer attempt. -/
theorem eglPath_no_materializer (env : ImportEnv) (st : BufferState) :
    IEvent.materializer ∉ (eglPath env st).2 := by
  intro hmem
  rcases eglPath_all_attempts env st _ hmem with ⟨a2, ha⟩
  cases ha

/-- The zero-copy path calls `createEGLImage` at most twice. -/
theorem eglPath_snd_len (env : ImportEnv) (st : BufferState) :
    (eglPath env st).2.length ≤ 2 := by
  cases h1 : env.createEGLImage st.attrs with
  | some img => simp [eglPath, h1]
  | none =>
    cases h2 : env.createEGLImage { st.attrs with modifier := DRM_FORMAT_MOD_INVALID } with
    | some img => simp [eglPath, h1, h2]
    | none => simp [eglPath, h1, h2]

/-- Result state of the zero-copy path: either some attempt succeeded —
the state carries a texture, `opaque` derived from the format (which the
modifier rewrite does not change) and `success` from the texture id — or
both attempts failed and only the modifier rewrite remains. -/
theorem eglPath_fst_cases (env : ImportEnv) (st : BufferState) :
    (∃ a2 tex, (eglPath env st).1 =
        { st with attrs := a2, texture := some tex,
                  opaqueBit := env.isFormatOpaqueFn st.attrs.format,
                  success := tex.texID != 0 } ∧
      (a2 = st.attrs ∨ a2 = { st.attrs with modifier := DRM_FORMAT_MOD_INVALID })) ∨
    (eglPath env st).1 = { st with attrs := { st.attrs with modifier := DRM_FORMAT_MOD_INVALID } } := by
  cases h1 : env.createEGLImage st.attrs with
  | some img =>
    exact Or.inl ⟨st.attrs, env.texFromImage st.attrs img, by simp [eglPath, h1], Or.inl rfl⟩
  | none =>
    cases h2 : env.createEGLImage { st.attrs with modifier := DRM_FORMAT_MOD_INVALID } with
    | some img =>
      refine Or.inl ⟨{ st.attrs with modifier := DRM_FORMAT_MOD_INVALID },
        env.texFromImage { st.attrs with modifier := DRM_FORMAT_MOD_INVALID } img,
        by simp [eglPath, h1, h2], Or.inr rfl⟩
    | none =>
      exact Or.inr (by simp [eglPath, h1, h2])

/-- Exhaustive case split of the constructor: the fallback gate is off and
only the zero-copy path runs; or it is on and the materializer failed,
prepending its marker to the zero-copy run; or the materializer produced
a texture with nonzero id and the constructor returns early; or (the
branch the materializer cannot actually reach) its texture id is zero and
the zero-copy path runs on the partially filled state. -/
theorem importBuffer_cases (env : ImportEnv) (a : Attrs) :
    ((a.crossGPU && env.secondaryAvailable && (env.enableCPUFallback && !env.disableCPUFallback)) = false ∧
      importBuffer env a =
        eglPath env { attrs := a, texture := none, success := false, opaqueBit := false }) ∨
    ((a.crossGPU && env.secondaryAvailable && (env.enableCPUFallback && !env.disableCPUFallback)) = true ∧
      (createCrossGPUTexture env.gpu a).1 = none ∧
      importBuffer env a =
        ((eglPath env { attrs := a, texture := none, success := false, opaqueBit := false }).1,
         IEvent.materializer ::
           (eglPath env { attrs := a, texture := none, success := false, opaqueBit := false }).2)) ∨
    ((a.crossGPU && env.secondaryAvailable && (env.enableCPUFallback && !env.disableCPUFallback)) = true ∧
      ∃ tex, (createCrossGPUTexture env.gpu a).1 = some tex ∧ (tex.texID != 0) = true ∧
        importBuffer env a =
          ({ attrs := a, texture := some tex, success := true,
             opaqueBit := env.isFormatOpaqueFn a.format }, [IEvent.materializer])) ∨
    ((a.crossGPU && env.secondaryAvailable && (env.enableCPUFallback && !env.disableCPUFallback)) = true ∧
      ∃ tex, (createCrossGPUTexture env.gpu a).1 = some tex ∧ (tex.texID != 0) = false ∧
        importBuffer env a =
          ((eglPath env { attrs := a, texture := some tex, success := false,
                          opaqueBit := env.isFormatOpaqueFn a.format }).1,
           IEvent.materializer ::
             (eglPath env { attrs := a, texture := some tex, success := false,
                            opaqueBit := env.isFormatOpaqueFn a.format }).2)) := by
  by_cases hc : (a.crossGPU && env.secondaryAvailable && (env.enableCPUFallback && !env.disableCPUFallback)) = true
  · cases hm : (createCrossGPUTexture env.gpu a).1 with
    | none =>
      refine Or.inr (Or.inl ⟨hc, rfl, ?_⟩)
      simp [importBuffer, hc, hm]
    | some tex =>
      cases ht : (tex.texID != 0) with
      | true =>
        refine Or.inr (Or.inr (Or.inl ⟨hc, tex, rfl, ht, ?_⟩))
        simp [importBuffer, hc, hm, ht]
      | false =>
        refine Or.inr (Or.inr (Or.inr ⟨hc, tex, rfl, ht, ?_⟩))
        simp [importBuffer, hc, hm, ht]
  · have hc' : (a.crossGPU && env.secondaryAvailable && (env.enableCPUFallback && !env.disableCPUFallback)) = false :=
      Bool.not_eq_true _ ▸ Bool.eq_false_iff.mpr hc
    refine Or.inl ⟨hc', ?_⟩
    simp [importBuffer, hc']

/-- C2: the materializer is attempted (and attempted first) exactly when
the descriptor is cross-GPU, the secondary device is available and
fallback is allowed (`enabled && !disabled`); in every other combination
only zero-copy attempts run; and when the materializer is attempted and
fails, a zero-copy attempt with the original attrs follows it. -/
theorem dmabuf_c2 (env : ImportEnv) (a : Attrs) :
    (IEvent.materializer ∈ (importBuffer env a).2 ↔
      (a.crossGPU && env.secondaryAvailable && (env.enableCPUFallback && !env.disableCPUFallback)) = true) ∧
    ((a.crossGPU && env.secondaryAvailable && (env.enableCPUFallback && !env.disableCPUFallback)) = true →
      ((importBuffer env a).2).head? = some IEvent.materializer) ∧
    ((a.crossGPU && env.secondaryAvailable && (env.enableCPUFallback && !env.disableCPUFallback)) = false →
      ∀ e ∈ (importBuffer env a).2, ∃ a2, e = IEvent.eglAttempt a2) ∧
    ((a.crossGPU && env.secondaryAvailable && (env.enableCPUFallback && !env.disableCPUFallback)) = true →
      (createCrossGPUTexture env.gpu a).1 = none →
      ∃ rest, (importBuffer env a).2 =
        IEvent.materializer :: IEvent.eglAttempt a :: rest) := by
  rcases importBuffer_cases env a with
    ⟨hc, he⟩ | ⟨hc, hm, he⟩ | ⟨hc, tex, hm, ht, he⟩ | ⟨hc, tex, hm, ht, he⟩
  · refine ⟨?_, ?_, ?_, ?_⟩
    · rw [hc]
      constructor
      · intro hmem
        rw [he] at hmem
        exact absurd hmem (eglPath_no_materializer env _)
      · intro h
        exact absurd h (by decide)
    · intro h
      rw [hc] at h
      exact absurd h (by decide)
    · intro _ e hmem
      rw [he] at hmem
      exact eglPath_all_attempts env _ e hmem
    · intro h _
      rw [hc] at h
      exact absurd h (by decide)
  · refine ⟨?_, ?_, ?_, ?_⟩
    · simp [he, hc]
    · intro _
      simp [he]
    · intro h
      rw [hc] at h
      exact absurd h (by decide)
    · intro _ _
      obtain ⟨rest, hr, _⟩ :=
        eglPath_snd_shape env { attrs := a, texture := none, success := false, opaqueBit := false }
      exact ⟨rest, by simp [he, hr]⟩
  · refine ⟨?_, ?_, ?_, ?_⟩
    · simp [he, hc]
    · intro _
      simp [he]
    · intro h
      rw [hc] at h
      exact absurd h (by decide)
    · intro _ hnone
      rw [hm] at hnone
      exact Option.noConfusion hnone
  · refine ⟨?_, ?_, ?_, ?_⟩
    · simp [he, hc]
    · intro _
      simp [he]
    · intro h
      rw [hc] at h
      exact absurd h (by decide)
    · intro _ hnone
      rw [hm] at hnone
      exact Option.noConfusion hnone

/-- C2 witness: with the fallback gate satisfied and a two-plane
descriptor (which the materializer rejects), the trace shows the
materializer first and a zero-copy attempt with the original attrs
afterwards. -/
theorem dmabuf_c2_witness :
    ∃ rest, (importBuffer importEnvFallback attrsTwoPlanes).2 =
      IEvent.materializer :: IEvent.eglAttempt attrsTwoPlanes :: rest :=
  (dmabuf_c2 importEnvFallback attrsTwoPlanes).2.2.2 (by decide) (by decide)

/-- C3: when the first `createEGLImage` request fails and the modifier is
non-implicit, exactly one retry happens and it carries the attrs with the
modifier replaced by the implicit sentinel; a second failure is terminal
for the zero-copy strategy (no texture, `success` unchanged); the strategy
never calls `createEGLImage` more than twice, and a whole import performs
at most two zero-copy attempts. -/
theorem dmabuf_c3 (env : ImportEnv) (st : BufferState) (a : Attrs) :
    (env.createEGLImage st.attrs = none → st.attrs.modifier ≠ DRM_FORMAT_MOD_INVALID →
      (eglPath env st).2 = [IEvent.eglAttempt st.attrs,
        IEvent.eglAttempt { st.attrs with modifier := DRM_FORMAT_MOD_INVALID }]) ∧
    (env.createEGLImage st.attrs = none →
      env.createEGLImage { st.attrs with modifier := DRM_FORMAT_MOD_INVALID } = none →
      (eglPath env st).1.texture = st.texture ∧ (eglPath env st).1.success = st.success) ∧
    (eglPath env st).2.length ≤ 2 ∧
    (importBuffer env a).2.countP isEglAttempt ≤ 2 := by
  refine ⟨?_, ?_, eglPath_snd_len env st, ?_⟩
  · intro h1 _
    cases h2 : env.createEGLImage { st.attrs with modifier := DRM_FORMAT_MOD_INVALID } with
    | some img => simp [eglPath, h1, h2]
    | none => simp [eglPath, h1, h2]
  · intro h1 h2
    simp [eglPath, h1, h2]
  · have hb : ∀ st' : BufferState, ((eglPath env st').2).countP isEglAttempt ≤ 2 :=
      fun st' => le_trans (List.countP_le_length _) (eglPath_snd_len env st')
    rcases importBuffer_cases env a with
      ⟨_, he⟩ | ⟨_, _, he⟩ | ⟨_, tex, _, _, he⟩ | ⟨_, tex, _, _, he⟩
    · simpa [he] using hb _
    · simpa [he, List.countP_cons, isEglAttempt] using hb _
    · simp [he, List.countP_cons, isEglAttempt]
    · simpa [he, List.countP_cons, isEglAttempt] using hb _

/-- C3 witness: at the sample environment failing on the non-implicit
modifier, the trace is exactly the original attempt followed by one
implicit-sentinel retry. -/
theorem dmabuf_c3_witness :
    (eglPath importEnvRetryOk stateInitial).2 =
      [IEvent.eglAttempt stateInitial.attrs,
       IEvent.eglAttempt { stateInitial.attrs with modifier := DRM_FORMAT_MOD_INVALID }] :=
  (dmabuf_c3 importEnvRetryOk stateInitial sampleAttrs).1 (by decide) (by decide)

/-- C5 counterexample: a non-cross-GPU import of an alpha-less XRGB8888
buffer in which both zero-copy attempts fail leaves `opaque` at false,
while the format classifies as alpha-less — so `opaque` does not equal
the format classification on failed imports. -/
theorem dmabuf_c5_cex :
    (importBuffer importEnvEglFail sampleAttrs).1.opaqueBit = false ∧
    importEnvEglFail.isFormatOpaqueFn sampleAttrs.format = true ∧
    (importBuffer importEnvEglFail sampleAttrs).1.success = false := by
  decide

/-- C5 amended: whenever any strategy constructed a texture object (even
one with an invalid id), `opaque` equals the format classification of the
descriptor; when no texture was constructed — both strategies failed —
`opaque` keeps its default false; and `success` is true exactly when a
texture with a nonzero id was produced. -/
theorem dmabuf_c5_amended (env : ImportEnv) (a : Attrs) :
    ((importBuffer env a).1.texture ≠ none →
      (importBuffer env a).1.opaqueBit = env.isFormatOpaqueFn a.format) ∧
    ((importBuffer env a).1.texture = none → (importBuffer env a).1.opaqueBit = false) ∧
    ((importBuffer env a).1.success = true ↔
      ∃ t, (importBuffer env a).1.texture = some t ∧ t.texID ≠ 0) := by
  rcases importBuffer_cases env a with
    ⟨_, he⟩ | ⟨_, _, he⟩ | ⟨_, tex, _, ht, he⟩ | ⟨_, tex, _, ht, he⟩
  · rcases eglPath_fst_cases env { attrs := a, texture := none, success := false, opaqueBit := false } with
      ⟨a2, tex2, hst, _⟩ | hst
    · refine ⟨?_, ?_, ?_⟩ <;> simp [he, hst]
    · refine ⟨?_, ?_, ?_⟩ <;> simp [he, hst]
  · rcases eglPath_fst_cases env { attrs := a, texture := none, success := false, opaqueBit := false } with
      ⟨a2, tex2, hst, _⟩ | hst
    · refine ⟨?_, ?_, ?_⟩ <;> simp [he, hst]
    · refine ⟨?_, ?_, ?_⟩ <;> simp [he, hst]
  · have ht' : tex.texID ≠ 0 := by simpa using ht
    refine ⟨?_, ?_, ?_⟩ <;> simp [he, ht']
  · have ht' : tex.texID = 0 := by simpa using ht
    rcases eglPath_fst_cases env
        { attrs := a
          texture := some tex
          success := false
          opaqueBit := env.isFormatOpaqueFn a.format } with
      ⟨a2, tex2, hst, _⟩ | hst
    · refine ⟨?_, ?_, ?_⟩ <;> simp [he, hst]
    · refine ⟨?_, ?_, ?_⟩ <;> simp [he, hst, ht']

/-- C5 amended witness: at the sample always-succeeding environment the
constructed buffer's `opaque` equals the format classification and a
texture with nonzero id exists. -/
theorem dmabuf_c5_amended_witness :
    (importBuffer importEnvEglOk sampleAttrs).1.opaqueBit =
      importEnvEglOk.isFormatOpaqueFn sampleAttrs.format ∧
    ∃ t, (importBuffer importEnvEglOk sampleAttrs).1.texture = some t ∧ t.texID ≠ 0 :=
  ⟨(dmabuf_c5_amended importEnvEglOk sampleAttrs).1 (by decide),
   (dmabuf_c5_amended importEnvEglOk sampleAttrs).2.2.mp (by decide)⟩

/-- C10: the capability query always advertises direct data-pointer
access, while the direct-pointer operation itself always returns a null
pointer with zero format and zero size, and the matching end operation
leaves the buffer state unchanged. -/
theorem dmabuf_c10 :
    caps = BUFFER_CAPABILITY_DATAPTR ∧
    (∀ flags, beginDataPtr flags = (none, 0, 0)) ∧
    (∀ b, endDataPtr b = b) :=
  ⟨rfl, fun _ => rfl, fun _ => rfl⟩

end DMABuf
